import Mathlib

/-!
Verification development for the poc_college_discovery repository.

Shallow embedding of the repository's data model (`src/models/college.py`),
the LLM-response parsing layer (`src/engines/llm_engine.py`), the discovery
orchestrator (`src/main.py`, `app.py`), the configuration defaults
(`src/utils/config.py`), and the evidence-validation engine.  Python floats
are modelled as rationals; timestamps as natural-number ticks; failures as
`Option`.  The module `src/engines/validation_engine.py` is imported by
`main.py` and `app.py` but is not present in the repository's source tree:
the validator is therefore modelled from the specification's §4.2 wording
and clearly marked as such below.
-/

/-- `VerificationStatus` enum from `src/models/college.py`. -/
inductive VerificationStatus where
  | DRAFT
  | VERIFIED
  | PUBLISHED
deriving DecidableEq, Repr

/-- `EvidenceStatus` enum from `src/models/college.py`. -/
inductive EvidenceStatus where
  | VERIFIED
  | PARTIALLY_VERIFIED
  | NO_EVIDENCE_FOUND
  | PENDING_VERIFICATION
deriving DecidableEq, Repr

/-- `Course` dataclass from `src/models/college.py` (floats as rationals). -/
structure Course where
  name : String
  degree_level : String
  official_source_url : String
  row_confidence : ℚ
  duration : Option String := none
  annual_fees : Option String := none
  seats : Option Int := none
  entrance_exams : List String := []
  specializations : List String := []
  evidence_urls : List String := []
deriving DecidableEq, Repr

/-- `College` dataclass from `src/models/college.py`; `last_collected`
(a `datetime`) is modelled as an abstract natural-number timestamp. -/
structure College where
  name : String
  city : String
  state : String
  type : String
  website : String
  overall_confidence : ℚ
  last_collected : Nat
  verification_status : VerificationStatus
  evidence_status : EvidenceStatus
  courses : List Course := []
  evidence_urls : List String := []
deriving DecidableEq, Repr

/-!
Parsing layer, from `CollegeDiscoveryEngine._parse_colleges_basic` and
`CollegeDiscoveryEngine._parse_courses` in `src/engines/llm_engine.py`.
Each entry of the decoded JSON list is either a record of optional fields
(`dict.get` returns the default when a key is absent) or a malformed value
on which the field accesses raise, which the `except` branch turns into a
skip of that entry.
-/

/-- Field set a well-formed college entry of the step-1 LLM response may
carry; `none` models an absent key, handled by `dict.get`'s default. -/
structure CollegeData where
  name : Option String := none
  city : Option String := none
  state : Option String := none
  type : Option String := none
  website : Option String := none
  confidence : Option ℚ := none
deriving DecidableEq, Repr

/-- One element of the response's `colleges` list: a well-formed record, or
a malformed value whose field accesses raise inside the per-record `try`. -/
inductive CollegeEntry where
  | obj (d : CollegeData)
  | malformed
deriving DecidableEq, Repr

/-- Body of the per-record `try` in `_parse_colleges_basic`: builds the
`College` with `dict.get` defaults (`confidence` defaults to `0.5`,
`verification_status = DRAFT`, `evidence_status = PENDING_VERIFICATION`,
`courses = []`); a malformed entry raises and is skipped (`none`). -/
def parse_college_entry (now : Nat) : CollegeEntry → Option College
  | CollegeEntry.obj d => some
      { name := d.name.getD ""
        city := d.city.getD ""
        state := d.state.getD ""
        type := d.type.getD ""
        website := d.website.getD ""
        overall_confidence := d.confidence.getD (1/2)
        last_collected := now
        verification_status := VerificationStatus.DRAFT
        evidence_status := EvidenceStatus.PENDING_VERIFICATION
        courses := []
        evidence_urls := [] }
  | CollegeEntry.malformed => none

/-- `CollegeDiscoveryEngine._parse_colleges_basic`: iterate over the
response's `colleges` list, keep every entry whose record body succeeds,
`continue` past entries whose parsing raises. -/
def parse_colleges_basic (now : Nat) (entries : List CollegeEntry) : List College :=
  entries.filterMap (parse_college_entry now)

/-- Field set a well-formed course entry of the step-2 LLM response may
carry. -/
structure CourseData where
  course_name : Option String := none
  degree_level : Option String := none
  duration : Option String := none
  annual_fees : Option String := none
  seats : Option Int := none
  entrance_exams : Option (List String) := none
  specializations : Option (List String) := none
deriving DecidableEq, Repr

/-- One element of the response's `courses` list. -/
inductive CourseEntry where
  | obj (d : CourseData)
  | malformed
deriving DecidableEq, Repr

/-- Body of the per-record `try` in `_parse_courses`: builds the `Course`
with `dict.get` defaults (`degree_level` defaults to `"UG"`,
`official_source_url` is the college's website, `row_confidence = 0.7`);
a malformed entry raises and is skipped. -/
def parse_course_entry (college_website : String) : CourseEntry → Option Course
  | CourseEntry.obj d => some
      { name := d.course_name.getD ""
        degree_level := d.degree_level.getD "UG"
        official_source_url := college_website
        row_confidence := 7/10
        duration := d.duration
        annual_fees := d.annual_fees
        seats := d.seats
        entrance_exams := d.entrance_exams.getD []
        specializations := d.specializations.getD []
        evidence_urls := [] }
  | CourseEntry.malformed => none

/-- `CollegeDiscoveryEngine._parse_courses`: iterate over the response's
`courses` list, keep every entry whose record body succeeds, `continue`
past entries whose parsing raises. -/
def parse_courses (college_website : String) (entries : List CourseEntry) : List Course :=
  entries.filterMap (parse_course_entry college_website)

/-!
Discovery orchestration, from `CollegeDiscoveryEngine.discover_colleges`
(`src/engines/llm_engine.py`) and `CollegeDiscoveryApp.run_discovery`
(`src/main.py`).  The two LLM calls are external; step 2's per-college
course discovery is abstracted as a function from the college to its
discovered course list.
-/

/-- Python truthiness of the optional `career_path: str = None` argument:
`if career_path:` is taken iff the value is neither `None` nor `""`. -/
def career_path_truthy : Option String → Bool
  | none => false
  | some s => !s.isEmpty

/-- `CollegeDiscoveryEngine.discover_colleges` after the external LLM calls
are abstracted: step 2 attaches each college's discovered courses, then, if
a career path was specified, colleges whose course list is empty are
filtered out; with no career path the list is returned unfiltered. -/
def discover_colleges (career_path : Option String) (colleges_basic : List College)
    (course_results : College → List Course) : List College :=
  let colleges_with_courses :=
    colleges_basic.map (fun c => { c with courses := course_results c })
  if career_path_truthy career_path then
    colleges_with_courses.filter (fun c => c.courses.length > 0)
  else
    colleges_with_courses

/-- `CollegeDiscoveryApp.run_discovery` (`src/main.py` lines 19-41): runs
discovery, then sets `validated_colleges = colleges` with the
`validator.validate_colleges` call commented out ("Skipping validation for
now"), and generates results from that list.  This returns the college
list that `_generate_results` embeds in the returned results dict. -/
def run_discovery (career_path : Option String) (colleges_basic : List College)
    (course_results : College → List Course) : List College :=
  let colleges := discover_colleges career_path colleges_basic course_results
  if colleges.isEmpty then
    []
  else
    let validated_colleges := colleges
    validated_colleges

/-!
Configuration, from `src/utils/config.py`.  Each numeric setting is read
from the environment once at startup, with a parsed default when the
variable is unset; the environment is modelled with one optional field per
variable, already carrying the parsed numeric value.
-/

/-- Environment slice read by `Config` (numeric settings only); a `none`
field models an unset environment variable. -/
structure ConfigEnv where
  REQUEST_DELAY : Option ℚ := none
  REQUEST_TIMEOUT : Option Int := none
  MIN_CONFIDENCE_THRESHOLD : Option ℚ := none
  VERIFICATION_THRESHOLD : Option ℚ := none
deriving DecidableEq, Repr

/-- `Config` class attributes from `src/utils/config.py`:
`REQUEST_DELAY = float(os.getenv("REQUEST_DELAY", "1.5"))`,
`REQUEST_TIMEOUT = int(os.getenv("REQUEST_TIMEOUT", "30"))`,
`MIN_CONFIDENCE_THRESHOLD = float(os.getenv("MIN_CONFIDENCE_THRESHOLD", "0.3"))`,
`VERIFICATION_THRESHOLD = float(os.getenv("VERIFICATION_THRESHOLD", "0.5"))`. -/
structure Config where
  REQUEST_DELAY : ℚ
  REQUEST_TIMEOUT : Int
  MIN_CONFIDENCE_THRESHOLD : ℚ
  VERIFICATION_THRESHOLD : ℚ
deriving DecidableEq, Repr

/-- Evaluation of the `Config` class body against an environment. -/
def Config.load (env : ConfigEnv) : Config :=
  { REQUEST_DELAY := env.REQUEST_DELAY.getD (3/2)
    REQUEST_TIMEOUT := env.REQUEST_TIMEOUT.getD 30
    MIN_CONFIDENCE_THRESHOLD := env.MIN_CONFIDENCE_THRESHOLD.getD (3/10)
    VERIFICATION_THRESHOLD := env.VERIFICATION_THRESHOLD.getD (1/2) }

/-!
Evidence validator.  The module `src/engines/validation_engine.py`
(`EvidenceValidator`) is imported by `src/main.py` and `app.py` but is not
present in the source tree; every definition in this section is modelled
from the specification's §4.2 wording.
-/

/-- Modelled from the spec: `FetchError` classification produced by the Web
Evidence Fetcher (§4.1) for `validation_engine.py`, which is missing from
the source tree. -/
inductive FetchError where
  | Timeout
  | ConnectionFailed
  | HttpError (status : Nat)
  | InvalidUrl
deriving DecidableEq, Repr

/-- Modelled from the spec: successful fetch payload
`(status_code, body_text, final_url)` of the Web Evidence Fetcher (§4.1). -/
structure FetchSuccess where
  status_code : Nat
  body_text : String
  final_url : String
deriving DecidableEq, Repr

/-- Outcome of fetching `college.website`, the validator's one network
input. -/
def FetchResult := Except FetchError FetchSuccess

/-- Case-insensitive substring test used by the keyword scans: both sides
lowercased, containment on the character lists. -/
def str_contains_ci (body pat : String) : Bool :=
  decide (pat.toLower.toList <:+: body.toLower.toList)

/-- Modelled from the spec: the fixed 8-term educational vocabulary of
stage 1 (§4.2) of the missing `validation_engine.py`. -/
def edu_keywords : List String :=
  ["admission", "course", "faculty", "campus",
   "semester", "syllabus", "placement", "department"]

/-- Modelled from the spec: the government-recognition vocabulary of
stage 3 (§4.2) of the missing `validation_engine.py`. -/
def govt_keywords : List String :=
  ["ugc", "aicte", "naac", "recognized by",
   "affiliated to", "government of india", "ministry of education"]

/-- Number of educational keywords found in the page body (stage 1). -/
def count_edu_keywords (body : String) : Nat :=
  (edu_keywords.filter (fun k => str_contains_ci body k)).length

/-- Modelled from the spec: stopwords excluded from a course name's
significant words (stage 2); the spec names no concrete list, so a minimal
English one is used. -/
def course_stopwords : List String :=
  ["the", "and", "of", "in", "for", "with"]

/-- Modelled from the spec: stage-2 fuzzy containment — a course name
matches the page body when at least half of its significant words (length
greater than 3, stopwords excluded, after lowercasing) appear in the body,
and it has at least one significant word. -/
def course_found_in_text (body course_name : String) : Bool :=
  let words := (course_name.toLower.splitOn " ").filter
    (fun w => w.length > 3 && !(course_stopwords.contains w))
  let found := words.filter (fun w => str_contains_ci body w)
  words.length > 0 && 2 * found.length ≥ words.length

/-- Per-stage confidence adjustments recorded in
`validation_details.adjustments` (§4.2 aggregation step). -/
structure Adjustments where
  website : ℚ
  course_evidence : ℚ
  govt_verification : ℚ
  domain_quality : ℚ
deriving DecidableEq, Repr

/-- The `validation_details` mapping attached by the validator (§6 fixes
its key set); `course_match_percentage` is `none` when the course stage
never populated it. -/
structure ValidationDetails where
  website_accessible : Bool
  website_appears_educational : Bool
  edu_keywords_found : Nat
  courses_found : Nat
  total_courses : Nat
  course_match_percentage : Option ℚ
  govt_verified : Bool
  domain_type : String
  adjustments : Adjustments
deriving DecidableEq, Repr

/-- A college as returned by the validator, with its attached
`validation_details` (Python attaches the attribute dynamically). -/
structure ValidatedCollege where
  college : College
  validation_details : ValidationDetails
deriving DecidableEq, Repr

/-- Clamp of the aggregated confidence to `[lo, hi]` (§4.2 aggregation). -/
def clamp (x lo hi : ℚ) : ℚ := max lo (min hi x)

/-- Modelled from the spec: stage 4 of the missing `validation_engine.py` —
domain classification by longest-suffix match in priority order, a pure
string check on the website, independent of fetch success (§4.2). Returns
the recorded `domain_type` and the delta. -/
def domain_quality (website : String) : String × ℚ :=
  if website.endsWith ".gov.in" then ("Government/Official (.gov.in)", 3/20)
  else if website.endsWith ".edu.in" || website.endsWith ".ac.in" then
    ("Academic (.edu.in/.ac.in)", 1/10)
  else if website.endsWith ".org.in" then ("Organization (.org.in)", 1/20)
  else ("Generic (.com/.in/other)", 0)

/-- Modelled from the spec: stage-2 outcome — skipped entirely (no delta,
`total_courses = 0`, percentage never populated) when the course list is
empty; otherwise counts, percentage, and the four-band delta policy (§4.2).
Returns `(courses_found, total_courses, course_match_percentage, delta)`. -/
def course_evidence_stage (courses : List Course) (body : String) :
    Nat × Nat × Option ℚ × ℚ :=
  match courses with
  | [] => (0, 0, none, 0)
  | _ =>
    let total := courses.length
    let found := (courses.filter (fun c => course_found_in_text body c.name)).length
    let pct : ℚ := (found : ℚ) / (total : ℚ) * 100
    let delta : ℚ :=
      if found = 0 then -(1/5)
      else if pct < 30 then -(1/20)
      else if pct < 70 then 1/10
      else 1/5
    (found, total, some pct, delta)

/-- Outcome of stage 1: the recorded reachability booleans, the keyword
count, the website delta, and the page body handed to later stages. -/
structure Stage1Result where
  website_accessible : Bool
  website_appears_educational : Bool
  edu_keywords_found : Nat
  delta : ℚ
  body : String
deriving DecidableEq, Repr

/-- Modelled from the spec: stage 1 of the missing `validation_engine.py` —
a failed fetch records inaccessibility with a flat −0.30 delta (and leaves
an empty body for the later scans); a successful fetch records
accessibility (+0.10), counts the educational keywords, and adds +0.10
when at least 2 are found, −0.10 otherwise (§4.2). -/
def website_stage (fr : FetchResult) : Stage1Result :=
  match fr with
  | Except.error _ =>
    { website_accessible := false
      website_appears_educational := false
      edu_keywords_found := 0
      delta := -(3/10)
      body := "" }
  | Except.ok s =>
    let k := count_edu_keywords s.body_text
    let edu := decide (k ≥ 2)
    { website_accessible := true
      website_appears_educational := edu
      edu_keywords_found := k
      delta := 1/10 + (if edu then 1/10 else -(1/10))
      body := s.body_text }

/-- Modelled from the spec: the diagnostic record the validator accumulates
over the four stages of §4.2, run in fixed order against the single fetch
outcome for `college.website`. -/
def validate_details (c : College) (fr : FetchResult) : ValidationDetails :=
  let s1 := website_stage fr
  let s2 := course_evidence_stage c.courses s1.body
  let govt := govt_keywords.any (fun k => str_contains_ci s1.body k)
  let dq := domain_quality c.website
  { website_accessible := s1.website_accessible
    website_appears_educational := s1.website_appears_educational
    edu_keywords_found := s1.edu_keywords_found
    courses_found := s2.1
    total_courses := s2.2.1
    course_match_percentage := s2.2.2.1
    govt_verified := govt
    domain_type := dq.1
    adjustments :=
      { website := s1.delta
        course_evidence := s2.2.2.2
        govt_verification := if govt then 3/20 else 0
        domain_quality := dq.2 } }

/-- Aggregation step of §4.2: the starting confidence plus the four stage
deltas, clamped to `[0, 1]`; this value replaces `overall_confidence`. -/
def new_confidence_of (c : College) (d : ValidationDetails) : ℚ :=
  clamp (c.overall_confidence + d.adjustments.website + d.adjustments.course_evidence
    + d.adjustments.govt_verification + d.adjustments.domain_quality) 0 1

/-- Modelled from the spec: the three-rule evidence-status precedence of
§4.2, evaluated on the recorded signal booleans. -/
def evidence_status_of (d : ValidationDetails) : EvidenceStatus :=
  if d.website_accessible && d.govt_verified
      && (d.total_courses = 0 || (d.course_match_percentage.getD 0) ≥ 70) then
    EvidenceStatus.VERIFIED
  else if d.website_accessible && (d.govt_verified || d.courses_found > 0) then
    EvidenceStatus.PARTIALLY_VERIFIED
  else
    EvidenceStatus.NO_EVIDENCE_FOUND

/-- Modelled from the spec: per-college validation of the missing
`validation_engine.py` — the four signal stages of §4.2 run in order, the
deltas are aggregated onto the incoming confidence and clamped to
`[0, 1]`, the evidence status is decided by the three-rule precedence, the
fetched URL is appended to `evidence_urls` only on success, and the
details record is attached. -/
def validate_college (c : College) (fr : FetchResult) : ValidatedCollege :=
  let d := validate_details c fr
  { college :=
      { c with
        overall_confidence := new_confidence_of c d
        evidence_status := evidence_status_of d
        evidence_urls :=
          c.evidence_urls ++ (if d.website_accessible then [c.website] else []) }
    validation_details := d }

/-- Modelled from the spec: `EvidenceValidator.get_confidence_level` of the
missing `validation_engine.py` (used by `app.py`), the pure band
classification of §4.2: HIGH at or above 0.8, MEDIUM in [0.6, 0.8), LOW in
[0.4, 0.6), VERY_LOW below 0.4. -/
def get_confidence_level (confidence : ℚ) : String :=
  if confidence ≥ 4/5 then "HIGH"
  else if confidence ≥ 3/5 then "MEDIUM"
  else if confidence ≥ 2/5 then "LOW"
  else "VERY_LOW"

/-!
Sample data used by the concrete witness theorems below.
-/

/-- The spec's §8 scenario college: no courses, generic `.com` website,
confidence 0.85, awaiting validation. -/
def sample_college : College :=
  { name := "ABC Institute of Technology"
    city := "Bangalore"
    state := "Karnataka"
    type := "Private"
    website := "http://fake-nonexistent-domain-xyz123.com"
    overall_confidence := 17/20
    last_collected := 0
    verification_status := VerificationStatus.DRAFT
    evidence_status := EvidenceStatus.PENDING_VERIFICATION
    courses := []
    evidence_urls := [] }

/-- The college produced by `parse_college_entry` from an entry with every
field absent: empty strings, default confidence 0.5, `DRAFT`,
`PENDING_VERIFICATION`, no courses. -/
def sample_parsed_college : College :=
  { name := ""
    city := ""
    state := ""
    type := ""
    website := ""
    overall_confidence := 1/2
    last_collected := 0
    verification_status := VerificationStatus.DRAFT
    evidence_status := EvidenceStatus.PENDING_VERIFICATION
    courses := []
    evidence_urls := [] }

/-!
Shared helper lemmas.
-/

/-- The clamp of any rational to `[0, 1]` is nonnegative. -/
theorem clamp_nonneg01 (x : ℚ) : 0 ≤ clamp x 0 1 :=
  le_max_left 0 _

/-- The clamp of any rational to `[0, 1]` is at most one. -/
theorem clamp_le_one01 (x : ℚ) : clamp x 0 1 ≤ 1 :=
  max_le (by norm_num) (min_le_left 1 x)

/-!
Claim theorems.
-/

/-- C1: for every College record and every fetch outcome, the validator
computes the new `overall_confidence` as the clamp to `[0, 1]` of the
starting confidence plus the four recorded stage deltas, so the resulting
confidence always lies in `[0, 1]`, whatever the input confidence and
whatever the deltas. -/
theorem C1_confidence_clamped_in_unit (c : College) (fr : FetchResult) :
    (validate_college c fr).college.overall_confidence =
      clamp (c.overall_confidence
        + (validate_college c fr).validation_details.adjustments.website
        + (validate_college c fr).validation_details.adjustments.course_evidence
        + (validate_college c fr).validation_details.adjustments.govt_verification
        + (validate_college c fr).validation_details.adjustments.domain_quality) 0 1
    ∧ 0 ≤ (validate_college c fr).college.overall_confidence
    ∧ (validate_college c fr).college.overall_confidence ≤ 1 := by
  have h : (validate_college c fr).college.overall_confidence =
      clamp (c.overall_confidence
        + (validate_college c fr).validation_details.adjustments.website
        + (validate_college c fr).validation_details.adjustments.course_evidence
        + (validate_college c fr).validation_details.adjustments.govt_verification
        + (validate_college c fr).validation_details.adjustments.domain_quality) 0 1 := rfl
  refine ⟨h, ?_, ?_⟩
  · rw [h]; exact clamp_nonneg01 _
  · rw [h]; exact clamp_le_one01 _

/-- C2: whenever validation records `website_accessible = false` (the fetch
of `college.website` failed), the assigned `evidence_status` is never
`Verified`, regardless of the government-recognition and course-match
signals. -/
theorem C2_inaccessible_never_verified (c : College) (fr : FetchResult)
    (h : (validate_college c fr).validation_details.website_accessible = false) :
    (validate_college c fr).college.evidence_status ≠ EvidenceStatus.VERIFIED := by
  have hd : (validate_college c fr).validation_details = validate_details c fr := rfl
  rw [hd] at h
  have hs : (validate_college c fr).college.evidence_status =
      evidence_status_of (validate_details c fr) := rfl
  rw [hs]
  unfold evidence_status_of
  rw [h]
  simp

/-- C2 witness: the spec's §8 scenario college with a failed fetch is not
`Verified`. -/
theorem C2_witness :
    (validate_college sample_college
        (Except.error FetchError.ConnectionFailed)).college.evidence_status
      ≠ EvidenceStatus.VERIFIED :=
  C2_inaccessible_never_verified sample_college
    (Except.error FetchError.ConnectionFailed) rfl

/-- C3: for a College with an empty course list the course-evidence stage
is skipped entirely — `total_courses = 0` in the details,
`course_match_percentage` is never populated, the recorded course delta is
`0`, and the confidence adjustment sums the remaining three deltas with a
zero course contribution. -/
theorem C3_empty_courses_stage_skipped (c : College) (fr : FetchResult)
    (h : c.courses = []) :
    (validate_college c fr).validation_details.total_courses = 0
    ∧ (validate_college c fr).validation_details.course_match_percentage = none
    ∧ (validate_college c fr).validation_details.adjustments.course_evidence = 0
    ∧ (validate_college c fr).college.overall_confidence =
        clamp (c.overall_confidence
          + (validate_college c fr).validation_details.adjustments.website
          + 0
          + (validate_college c fr).validation_details.adjustments.govt_verification
          + (validate_college c fr).validation_details.adjustments.domain_quality) 0 1 := by
  obtain ⟨nm, ct, st, ty, wb, oc, lc, vs, es, cs, eu⟩ := c
  have h' : cs = [] := h
  subst h'
  exact ⟨rfl, rfl, rfl, rfl⟩

/-- C3 witness: the course-less §8 scenario college, validated against a
failed fetch, exhibits the skipped course stage. -/
theorem C3_witness :
    (validate_college sample_college
        (Except.error FetchError.ConnectionFailed)).validation_details.total_courses = 0
    ∧ (validate_college sample_college
        (Except.error FetchError.ConnectionFailed)).validation_details.course_match_percentage
        = none
    ∧ (validate_college sample_college
        (Except.error FetchError.ConnectionFailed)).validation_details.adjustments.course_evidence
        = 0
    ∧ (validate_college sample_college
        (Except.error FetchError.ConnectionFailed)).college.overall_confidence =
        clamp (sample_college.overall_confidence
          + (validate_college sample_college
              (Except.error FetchError.ConnectionFailed)).validation_details.adjustments.website
          + 0
          + (validate_college sample_college
              (Except.error FetchError.ConnectionFailed)).validation_details.adjustments.govt_verification
          + (validate_college sample_college
              (Except.error FetchError.ConnectionFailed)).validation_details.adjustments.domain_quality)
          0 1 :=
  C3_empty_courses_stage_skipped sample_college
    (Except.error FetchError.ConnectionFailed) rfl

/-- C4: the confidence-level classification is a pure function of the
confidence with bands HIGH at or above 0.8, MEDIUM on [0.6, 0.8), LOW on
[0.4, 0.6), VERY_LOW below 0.4; in particular 0.8 maps to HIGH, 0.79999 to
MEDIUM, 0.6 to MEDIUM, 0.59999 to LOW, 0.4 to LOW, and 0.39999 to
VERY_LOW. -/
theorem C4_confidence_level_bands :
    (∀ q : ℚ,
      (4/5 ≤ q → get_confidence_level q = "HIGH")
      ∧ (3/5 ≤ q → q < 4/5 → get_confidence_level q = "MEDIUM")
      ∧ (2/5 ≤ q → q < 3/5 → get_confidence_level q = "LOW")
      ∧ (q < 2/5 → get_confidence_level q = "VERY_LOW"))
    ∧ get_confidence_level (8/10) = "HIGH"
    ∧ get_confidence_level (79999/100000) = "MEDIUM"
    ∧ get_confidence_level (6/10) = "MEDIUM"
    ∧ get_confidence_level (59999/100000) = "LOW"
    ∧ get_confidence_level (4/10) = "LOW"
    ∧ get_confidence_level (39999/100000) = "VERY_LOW" := by
  have hb : ∀ q : ℚ,
      (4/5 ≤ q → get_confidence_level q = "HIGH")
      ∧ (3/5 ≤ q → q < 4/5 → get_confidence_level q = "MEDIUM")
      ∧ (2/5 ≤ q → q < 3/5 → get_confidence_level q = "LOW")
      ∧ (q < 2/5 → get_confidence_level q = "VERY_LOW") := by
    intro q
    refine ⟨fun h1 => ?_, fun h2a h2b => ?_, fun h3a h3b => ?_, fun h4 => ?_⟩
    · simp [get_confidence_level, ge_iff_le, h1]
    · simp [get_confidence_level, ge_iff_le, h2a, not_le.mpr h2b]
    · have hn1 : ¬ (4/5 ≤ q) := not_le.mpr (by linarith)
      simp [get_confidence_level, ge_iff_le, h3a, not_le.mpr h3b, hn1]
    · have hn1 : ¬ (4/5 ≤ q) := not_le.mpr (by linarith)
      have hn2 : ¬ (3/5 ≤ q) := not_le.mpr (by linarith)
      simp [get_confidence_level, ge_iff_le, not_le.mpr h4, hn1, hn2]
  refine ⟨hb, ?_, ?_, ?_, ?_, ?_, ?_⟩
  · exact (hb (8/10)).1 (by norm_num)
  · exact (hb (79999/100000)).2.1 (by norm_num) (by norm_num)
  · exact (hb (6/10)).2.1 (by norm_num) (by norm_num)
  · exact (hb (59999/100000)).2.2.1 (by norm_num) (by norm_num)
  · exact (hb (4/10)).2.2.1 (by norm_num) (by norm_num)
  · exact (hb (39999/100000)).2.2.2 (by norm_num)

/-- C4 witness: the band implications applied at concrete confidences. -/
theorem C4_witness :
    get_confidence_level (9/10) = "HIGH" ∧ get_confidence_level (1/4) = "VERY_LOW" :=
  ⟨(C4_confidence_level_bands.1 (9/10)).1 (by norm_num),
   (C4_confidence_level_bands.1 (1/4)).2.2.2 (by norm_num)⟩

/-- C5: evaluation of `CollegeDiscoveryApp.run_discovery` as written —
since the `validator.validate_colleges` call is commented out
("Skipping validation for now"), the pipeline hands the discovery output
to result generation unchanged, so a discovered college still carries the
pre-validation `PendingVerification` status in the returned results. -/
theorem C5_run_discovery_skips_validation :
    (∀ (cp : Option String) (basic : List College) (f : College → List Course),
        run_discovery cp basic f = discover_colleges cp basic f)
    ∧ (run_discovery none [sample_college] (fun _ => [])).map College.evidence_status
        = [EvidenceStatus.PENDING_VERIFICATION] := by
  constructor
  · intro cp basic f
    simp only [run_discovery]
    split
    · next h => rw [List.isEmpty_iff.mp h]
    · rfl
  · rfl

/-- C6 counterexample: a step-1 response entry whose `confidence` field is
2 yields a College whose `overall_confidence` is 2, outside `[0, 1]` — the
parser applies no clamping. -/
theorem C6_counterexample :
    (parse_colleges_basic 0
        [CollegeEntry.obj { confidence := some 2 }]).map College.overall_confidence
      = [2]
    ∧ ¬ ((2 : ℚ) ≤ 1) := by
  exact ⟨rfl, by norm_num⟩

/-- C6 (amended): each College constructed by the discovery parser carries
the response's `confidence` field unclamped (default 0.5 when absent), so
`overall_confidence ∈ [0, 1]` holds exactly when every present
`confidence` field of the response lies in `[0, 1]`. -/
theorem C6_amended_confidence_in_range (now : Nat) (entries : List CollegeEntry)
    (h : ∀ d, CollegeEntry.obj d ∈ entries →
        ∀ q, d.confidence = some q → 0 ≤ q ∧ q ≤ 1) :
    ∀ c ∈ parse_colleges_basic now entries,
      0 ≤ c.overall_confidence ∧ c.overall_confidence ≤ 1 := by
  intro c hc
  rw [parse_colleges_basic, List.mem_filterMap] at hc
  obtain ⟨e, he, hpe⟩ := hc
  cases e with
  | malformed => simp [parse_college_entry] at hpe
  | obj d =>
    simp only [parse_college_entry, Option.some.injEq] at hpe
    subst hpe
    show 0 ≤ d.confidence.getD (1/2) ∧ d.confidence.getD (1/2) ≤ 1
    cases hq : d.confidence with
    | none => constructor <;> norm_num
    | some q => simpa using h d he q hq

/-- C6 witness: an entry with the `confidence` field absent parses to a
College with the in-range default confidence 0.5. -/
theorem C6_witness :
    0 ≤ sample_parsed_college.overall_confidence
    ∧ sample_parsed_college.overall_confidence ≤ 1 :=
  C6_amended_confidence_in_range 0 [CollegeEntry.obj {}]
    (by intro d hd q hq; simp at hd; subst hd; simp at hq)
    sample_parsed_college
    (List.mem_filterMap.mpr ⟨CollegeEntry.obj {}, List.mem_cons_self _ _, rfl⟩)

/-- C7: `evidence_status` is `PendingVerification` exactly before
validation — every College built by the discovery parser carries
`PENDING_VERIFICATION`, and the validator always replaces it with one of
the three terminal values, never `PENDING_VERIFICATION`. -/
theorem C7_pending_iff_unvalidated :
    (∀ (now : Nat) (e : CollegeEntry) (c : College),
        parse_college_entry now e = some c →
        c.evidence_status = EvidenceStatus.PENDING_VERIFICATION)
    ∧ ∀ (c : College) (fr : FetchResult),
        (validate_college c fr).college.evidence_status ≠
          EvidenceStatus.PENDING_VERIFICATION := by
  constructor
  · intro now e c h
    cases e with
    | malformed => simp [parse_college_entry] at h
    | obj d =>
      simp only [parse_college_entry, Option.some.injEq] at h
      subst h
      rfl
  · intro c fr
    have hs : (validate_college c fr).college.evidence_status =
        evidence_status_of (validate_details c fr) := rfl
    rw [hs]
    unfold evidence_status_of
    split_ifs <;> decide

/-- C7 witness: a freshly parsed college is pending; validating it against
a timed-out fetch assigns a terminal status. -/
theorem C7_witness :
    sample_parsed_college.evidence_status = EvidenceStatus.PENDING_VERIFICATION
    ∧ (validate_college sample_parsed_college
        (Except.error FetchError.Timeout)).college.evidence_status ≠
        EvidenceStatus.PENDING_VERIFICATION :=
  ⟨C7_pending_iff_unvalidated.1 0 (CollegeEntry.obj {}) sample_parsed_college rfl,
   C7_pending_iff_unvalidated.2 sample_parsed_college (Except.error FetchError.Timeout)⟩

/-- C8: parsing is per-record isolate-and-continue — a malformed college or
course entry anywhere in the response list is skipped, and the entries
before and after it parse exactly as they would without it; no error is
returned. -/
theorem C8_parse_isolates_malformed :
    (∀ (now : Nat) (xs ys : List CollegeEntry),
        parse_colleges_basic now (xs ++ CollegeEntry.malformed :: ys) =
          parse_colleges_basic now xs ++ parse_colleges_basic now ys)
    ∧ ∀ (w : String) (xs ys : List CourseEntry),
        parse_courses w (xs ++ CourseEntry.malformed :: ys) =
          parse_courses w xs ++ parse_courses w ys := by
  constructor <;> intro a xs ys <;>
    simp [parse_colleges_basic, parse_courses, List.filterMap_append,
      List.filterMap_cons, parse_college_entry, parse_course_entry]

/-- C9: with the corresponding environment variables unset, the
configuration defaults are request delay 1.5, request timeout 30,
minimum-confidence threshold 0.3, and verification threshold 0.5. -/
theorem C9_config_defaults (env : ConfigEnv)
    (h1 : env.REQUEST_DELAY = none) (h2 : env.REQUEST_TIMEOUT = none)
    (h3 : env.MIN_CONFIDENCE_THRESHOLD = none)
    (h4 : env.VERIFICATION_THRESHOLD = none) :
    (Config.load env).REQUEST_DELAY = 3/2
    ∧ (Config.load env).REQUEST_TIMEOUT = 30
    ∧ (Config.load env).MIN_CONFIDENCE_THRESHOLD = 3/10
    ∧ (Config.load env).VERIFICATION_THRESHOLD = 1/2 := by
  simp [Config.load, h1, h2, h3, h4]

/-- C9 witness: the empty environment yields exactly the documented
defaults. -/
theorem C9_witness :
    (Config.load {}).REQUEST_DELAY = 3/2
    ∧ (Config.load {}).REQUEST_TIMEOUT = 30
    ∧ (Config.load {}).MIN_CONFIDENCE_THRESHOLD = 3/10
    ∧ (Config.load {}).VERIFICATION_THRESHOLD = 1/2 :=
  C9_config_defaults {} rfl rfl rfl rfl

/-- C10: with a (truthy) career path, `discover_colleges` keeps exactly
the colleges whose course discovery yielded at least one course — every
returned college has a non-empty course list, and the result is the
filtered course-annotated list; with no career path the course-annotated
list is returned unfiltered, zero-course colleges included. -/
theorem C10_career_path_filter (career_path : Option String)
    (colleges_basic : List College) (course_results : College → List Course) :
    (career_path_truthy career_path = true →
      (∀ c ∈ discover_colleges career_path colleges_basic course_results,
          c.courses ≠ [])
      ∧ discover_colleges career_path colleges_basic course_results =
          (colleges_basic.map
            (fun c => { c with courses := course_results c })).filter
            (fun c => c.courses.length > 0))
    ∧ (career_path_truthy career_path = false →
        discover_colleges career_path colleges_basic course_results =
          colleges_basic.map (fun c => { c with courses := course_results c })) := by
  constructor
  · intro ht
    constructor
    · intro c hc
      simp only [discover_colleges, ht, if_true] at hc
      rw [List.mem_filter] at hc
      have : 0 < c.courses.length := by simpa using hc.2
      exact List.ne_nil_of_length_pos this
    · simp [discover_colleges, ht]
  · intro hf
    simp [discover_colleges, hf]

/-- C10 witness: with a career path specified, a college whose course
discovery yielded no courses is dropped from the result. -/
theorem C10_witness :
    discover_colleges (some "Data Science") [sample_college] (fun _ => []) = [] := by
  have h := ((C10_career_path_filter (some "Data Science") [sample_college]
      (fun _ => [])).1 rfl).2
  rw [h]
  rfl
